import Mathlib

/-!
Verification development for the `internal/ssh` package of provider-orchard:
a shallow embedding of the WebSocket-to-SSH tunnel layer (stream adapter,
URL construction, dial-failure classification, command/script execution,
session teardown and the facade operations), with theorems checking the
natural-language specification against the code.
-/

set_option maxRecDepth 5000
set_option linter.unusedVariables false

namespace ProviderOrchard

/-! ## Error model (src/internal/ssh/options.go, sentinel errors)

`options.go` declares five sentinel errors; `errors.Wrap`/`errors.Wrapf`
from github.com/pkg/errors attaches a message to a sentinel such that
`errors.Is(err, sentinel)` holds exactly for that sentinel.  We model a
wrapped error as an optional sentinel tag plus the message text. -/

/-- The five sentinel error values declared in options.go. -/
inductive Sentinel where
  | connectionFailed  -- ErrConnectionFailed
  | sshAuthFailed     -- ErrSSHAuthFailed
  | vmNotReady        -- ErrVMNotReady
  | timeout           -- ErrTimeout
  | sftpFailed        -- ErrSFTPFailed
deriving DecidableEq, Repr

/-- Model of a Go error produced by `errors.Wrap(f)`: an optional sentinel
cause (the target that `errors.Is` matches) and the human-readable text. -/
structure WrappedErr where
  sentinel : Option Sentinel
  msg : String
deriving DecidableEq, Repr

/-- Model of `errors.Is(e, s)` for a wrapped error against a sentinel. -/
def errorsIs (e : WrappedErr) (s : Sentinel) : Bool :=
  e.sentinel = some s

/-! ## Small string helpers mirroring the Go standard library -/

/-- `charsContains l pat`: does `pat` occur as a contiguous run inside `l`?
Mirrors `strings.Contains` on the character level. -/
def charsContains (l pat : List Char) : Bool :=
  match l with
  | [] => pat.isEmpty
  | c :: t => pat.isPrefixOf (c :: t) || charsContains t pat

/-- Model of Go `strings.Contains s pat`. -/
def strContains (s pat : String) : Bool :=
  charsContains s.data pat.data

/-! ## URL construction (src/internal/ssh/tunnel.go, `buildWebSocketURL`)

The Go code uses `net/url.Parse` on the configured base URL and
`net/url.PathEscape` on the VM name.  We model both restricted to the URL
shapes a TunnelConfig base address can take (`scheme://host/path`, no
userinfo, no percent-escapes in the base path; query and fragment of the
base are dropped, exactly as the Go code drops them by using only the
parsed `Host` and `Path` fields). -/

/-- UTF-8 encoding of one character as its byte values (Go strings are
UTF-8 byte sequences, and `url.PathEscape` works byte by byte). -/
def utf8Bytes (c : Char) : List Nat :=
  let n := c.toNat
  if n < 0x80 then [n]
  else if n < 0x800 then [0xC0 + n / 0x40, 0x80 + n % 0x40]
  else if n < 0x10000 then
    [0xE0 + n / 0x1000, 0x80 + n / 0x40 % 0x40, 0x80 + n % 0x40]
  else
    [0xF0 + n / 0x40000, 0x80 + n / 0x1000 % 0x40, 0x80 + n / 0x40 % 0x40,
      0x80 + n % 0x40]

/-- The bytes `net/url.shouldEscape` leaves unescaped in a path segment:
alphanumerics, the unreserved marks `- _ . ~`, and the reserved characters
`$ & + : = @`; everything else — including space, `/`, `;`, `,`, `?` and
all non-ASCII bytes — is escaped. -/
def pathSegmentByteAllowed (b : Nat) : Bool :=
  (65 ≤ b && b ≤ 90) || (97 ≤ b && b ≤ 122) || (48 ≤ b && b ≤ 57) ||
    b = 45 || b = 95 || b = 46 || b = 126 ||
    b = 36 || b = 38 || b = 43 || b = 58 || b = 61 || b = 64

/-- Uppercase hexadecimal digit, as used by `net/url`'s escaper. -/
def upperHexDigit (n : Nat) : Char :=
  if n < 10 then Char.ofNat (48 + n) else Char.ofNat (55 + n)

/-- Model of `net/url.PathEscape`: escape every disallowed byte of the
UTF-8 encoding as `%XX` with uppercase hexadecimal digits. -/
def pathEscape (s : String) : String :=
  String.mk ((s.data.flatMap utf8Bytes).flatMap fun b =>
    if pathSegmentByteAllowed b then [Char.ofNat b]
    else ['%', upperHexDigit (b / 16), upperHexDigit (b % 16)])

/-- The fields of a parsed base URL that `buildWebSocketURL` consumes. -/
structure GoURL where
  scheme : String
  host : String
  path : String
deriving DecidableEq, Repr

/-- A character allowed inside a URL scheme (`net/url.getScheme`). -/
def isSchemeChar (c : Char) : Bool :=
  c.isAlpha || c.isDigit || c = '+' || c = '-' || c = '.'

/-- Model of `net/url.Parse` restricted to base addresses of the form
`scheme://host/path`: the scheme is the lowercased run of scheme
characters before the first `:` (it must start with a letter), the host
runs to the next `/`, `?` or `#`, and the path runs from there to the next
`?` or `#` (query and fragment are dropped, matching the Go code's use of
only `Host` and `Path`).  URLs with userinfo or percent-escapes in the
path are outside the modelled fragment and rejected. -/
def parseURL (s : String) : Except String GoURL :=
  let cs := s.data
  let schemePart := cs.takeWhile isSchemeChar
  let rest := cs.drop schemePart.length
  match rest with
  | ':' :: afterColon =>
      if schemePart.isEmpty then .error "missing protocol scheme"
      else if !(schemePart.headD ' ').isAlpha then .error "invalid scheme"
      else
        match afterColon with
        | '/' :: '/' :: afterSlashes =>
            let authority := afterSlashes.takeWhile
              fun c => !(c = '/' || c = '?' || c = '#')
            let afterAuth := afterSlashes.drop authority.length
            let path := afterAuth.takeWhile fun c => !(c = '?' || c = '#')
            if authority.contains '@' then
              .error "userinfo is outside the modelled fragment"
            else if path.contains '%' then
              .error "escaped path is outside the modelled fragment"
            else
              .ok { scheme := String.mk (schemePart.map Char.toLower),
                    host := String.mk authority,
                    path := String.mk path }
        | _ => .error "URL without authority is outside the modelled fragment"
  | _ => .error "missing protocol scheme"

/-- `TunnelConfig` (src/internal/ssh/options.go).  `timeout` is in
nanoseconds, as a Go `time.Duration`. -/
structure TunnelConfig where
  orchardBaseURL : String
  bearerToken : String
  vmName : String
  sshPort : Int
  waitSeconds : Int
  sshUsername : String
  sshPassword : String
  timeout : Int
deriving DecidableEq, Repr

/-- Model of `buildWebSocketURL` (src/internal/ssh/tunnel.go:75-102):
parse the base URL, switch the scheme to `wss` exactly when the base
scheme is `https` and to `ws` otherwise, then append
`/vms/{escaped-name}/port-forward?port={port}` to the base host+path,
with `&wait={wait}` appended only when the wait budget is positive. -/
def buildWebSocketURL (config : TunnelConfig) : Except String String :=
  match parseURL config.orchardBaseURL with
  | .error e =>
      .error ("invalid Orchard base URL \x22" ++ config.orchardBaseURL ++ "\x22: " ++ e)
  | .ok baseURL =>
      let scheme := if baseURL.scheme = "https" then "wss" else "ws"
      let wsURL := scheme ++ "://" ++ baseURL.host ++ baseURL.path ++ "/vms/" ++
        pathEscape config.vmName ++ "/port-forward?port=" ++ toString config.sshPort
      if 0 < config.waitSeconds then
        .ok (wsURL ++ "&wait=" ++ toString config.waitSeconds)
      else
        .ok wsURL

/-- The scheme a URL string announces: its characters before the first `:`. -/
def urlScheme (url : String) : String :=
  String.mk (url.data.takeWhile fun c => c ≠ ':')

/-! ## Duplex stream adapter (src/unnamed/part_001, `wsNetConn`)

`wsNetConn` adapts a message-oriented WebSocket connection into a byte
stream.  Its state is the queue of inbound binary messages not yet fetched
plus the unread remainder of the current message (the `reader` field,
`nil` in Go when no partial message is held).  Bytes are modelled as `Nat`. -/

/-- State of the read side of a `wsNetConn`: the pending inbound messages
of the underlying WebSocket connection and the unread remainder of the
message currently held in the `reader` field (`none` models `reader == nil`). -/
structure WSState where
  inbound : List (List Nat)
  reader : Option (List Nat)
deriving DecidableEq, Repr

/-- Model of fetching the next WebSocket message (`c.ws.Reader` followed by
`c.reader.Read(b)` in `wsNetConn.Read`): pops the next inbound message, keeps
its unread tail in the `reader` field and hands at most `k` bytes back.
`none` models the error paths (no message available / the fresh reader
immediately reporting EOF on an empty message). -/
def fetchNextMessage (k : Nat) (s : WSState) : Option (List Nat × WSState) :=
  match s.inbound with
  | [] => none
  | m :: rest =>
      if m.isEmpty then none
      else some (m.take k, { inbound := rest, reader := some (m.drop k) })

/-- Model of `wsNetConn.Read` with a caller buffer of size `k`: drain the
buffered remainder of the current message first; only when it is exhausted
(the buffered reader returns `io.EOF` with zero bytes) fall through and
fetch the next message. -/
def wsNetConnRead (k : Nat) (s : WSState) : Option (List Nat × WSState) :=
  match s.reader with
  | some rem =>
      if rem.isEmpty then
        -- err == io.EOF with n == 0: clear the reader, fall through
        fetchNextMessage k { s with reader := none }
      else
        some (rem.take k, { s with reader := some (rem.drop k) })
  | none => fetchNextMessage k s

/-- Outcome of the underlying `ws.Write` transport call. -/
inductive WriteOutcome where
  | delivered
  | failed (msg : String)
deriving DecidableEq, Repr

/-- Model of `wsNetConn.Write`: sends the entire buffer as one binary
message.  On success the whole buffer is appended to the peer's inbound
queue and the full length is returned; on transport failure the error is
returned and nothing is sent. -/
def wsNetConnWrite (outcome : WriteOutcome) (b : List Nat) (peer : WSState) :
    Except String (Nat × WSState) :=
  match outcome with
  | .delivered => .ok (b.length, { peer with inbound := peer.inbound ++ [b] })
  | .failed m => .error m

/-- Repeatedly call `wsNetConnRead` with buffer size `k`, concatenating the
bytes returned, until a read yields no data or `fuel` runs out. -/
def readAll (k : Nat) : Nat → WSState → List Nat
  | 0, _ => []
  | fuel + 1, s =>
      match wsNetConnRead k s with
      | none => []
      | some (bs, s') => bs ++ readAll k fuel s'

/-! ## Dial-failure classification (src/internal/ssh/tunnel.go, `dialWebSocket`)

When `websocket.Dial` fails, `dialWebSocket` classifies the failure by the
HTTP status observed during the handshake, if any: 404 wraps
`ErrVMNotReady` with the VM name and status, 503 and 400 wrap
`ErrConnectionFailed` with specific texts, any other status wraps
`ErrConnectionFailed` with the status and the underlying error text, and a
failure with no HTTP response wraps `ErrConnectionFailed` with the
underlying error text. -/

/-- Model of the error branch of `dialWebSocket` (tunnel.go:49-66):
`status` is `resp.StatusCode` when a handshake HTTP response was observed
(`none` when `resp == nil`) and `errText` is the dial error's text. -/
def classifyDialFailure (vmName : String) (status : Option Nat) (errText : String) :
    WrappedErr :=
  match status with
  | some code =>
      if code = 404 then
        ⟨some .vmNotReady,
          "VM \x22" ++ vmName ++ "\x22 not found (HTTP " ++ toString code ++ ")"⟩
      else if code = 503 then
        ⟨some .connectionFailed,
          "failed to connect to VM \x22" ++ vmName ++ "\x22 worker (HTTP " ++
            toString code ++ ")"⟩
      else if code = 400 then
        ⟨some .connectionFailed,
          "invalid port specified (HTTP " ++ toString code ++ ")"⟩
      else
        ⟨some .connectionFailed,
          "WebSocket dial failed with status " ++ toString code ++ ": " ++ errText⟩
  | none => ⟨some .connectionFailed, errText⟩

/-! ## Command and script execution (src/internal/ssh/session.go)

`ExecuteCommand`/`ExecuteScript` open an ephemeral channel, attach
stdout/stderr buffers, run the command (`/bin/bash` fed from stdin in the
script case), and convert an `*ssh.ExitError` into a successful
`CommandResult`; any other `Run` error, and a failure to open the channel,
surface as errors. -/

/-- `CommandResult` (src/internal/ssh/options.go:75-84). -/
structure CommandResult where
  exitCode : Int
  stdout : String
  stderr : String
deriving DecidableEq, Repr

/-- Outcome of `session.Run` on the remote side: clean exit, an
`*ssh.ExitError` carrying the remote process's exit status, or any other
(transport/protocol-level) error. -/
inductive RunOutcome where
  | success
  | exit (code : Int)
  | transport (msg : String)
deriving DecidableEq, Repr

/-- The environment one execution interacts with: whether
`sshClient.NewSession` succeeds, the outcome of `Run`, and the text the
remote process writes to the attached stdout/stderr buffers. -/
structure ExecEnv where
  newSession : Except String Unit
  runOutcome : RunOutcome
  stdout : String
  stderr : String
deriving Repr

/-- A Go-style `(value, error)` pair as returned by the execution calls. -/
structure GoResult where
  res : Option CommandResult
  err : Option String
deriving DecidableEq, Repr

/-- Model of `vmSession.ExecuteCommand` (session.go:104-133): a channel
that cannot be opened and a transport-level `Run` failure return errors;
an `*ssh.ExitError` is captured in the result's exit code with a nil
error; a clean run returns exit code 0. -/
def executeCommand (e : ExecEnv) (command : String) : GoResult :=
  match e.newSession with
  | .error msg => ⟨none, some ("failed to create SSH session: " ++ msg)⟩
  | .ok _ =>
      match e.runOutcome with
      | .success => ⟨some ⟨0, e.stdout, e.stderr⟩, none⟩
      | .exit code => ⟨some ⟨code, e.stdout, e.stderr⟩, none⟩
      | .transport msg =>
          ⟨some ⟨0, e.stdout, e.stderr⟩,
            some ("command execution failed: " ++ msg)⟩

/-- Model of `strings.ReplaceAll(value, single-quote, quote-dquote-quote-dquote-quote)`
(session.go:148): each single quote in an environment value is replaced by
the five characters that close the quote, insert a double-quoted quote and
reopen the quote. -/
def escapeShellValue (v : String) : String :=
  String.mk (v.data.flatMap fun c =>
    if c = '\x27' then ['\x27', '\x22', '\x27', '\x22', '\x27'] else [c])

/-- One `export NAME='escaped-value'` line as written by the loop body in
`ExecuteScript` (session.go:146-150). -/
def exportLine (kv : String × String) : String :=
  "export " ++ kv.1 ++ "=" ++ String.mk ['\x27'] ++ escapeShellValue kv.2 ++
    String.mk ['\x27'] ++ "\n"

/-- Model of the script synthesis in `ExecuteScript` (session.go:144-151):
a `strings.Builder` accumulating the shebang line, `set -e`, the export
lines in environment order, then the caller's script verbatim.  Go map
iteration order is unspecified, so the environment is modelled as an
association list in iteration order. -/
def buildScriptBody (script : String) (env : List (String × String)) : String :=
  "#!/bin/bash\nset -e\n" ++
    env.foldl (fun acc kv => acc ++ exportLine kv) "" ++ script

/-- What one `ExecuteScript` call did: the text fed to the remote stdin,
the command line run, and the Go-style result. -/
structure ScriptRun where
  stdin : Option String
  command : Option String
  result : GoResult
deriving DecidableEq, Repr

/-- Model of `vmSession.ExecuteScript` (session.go:136-177): synthesize
the script body, feed it to stdin and run `/bin/bash` directly; result
handling is identical to `ExecuteCommand`. -/
def executeScript (e : ExecEnv) (script : String) (env : List (String × String)) :
    ScriptRun :=
  match e.newSession with
  | .error msg => ⟨none, none, ⟨none, some ("failed to create SSH session: " ++ msg)⟩⟩
  | .ok _ =>
      let body := buildScriptBody script env
      match e.runOutcome with
      | .success => ⟨some body, some "/bin/bash", ⟨some ⟨0, e.stdout, e.stderr⟩, none⟩⟩
      | .exit code =>
          ⟨some body, some "/bin/bash", ⟨some ⟨code, e.stdout, e.stderr⟩, none⟩⟩
      | .transport msg =>
          ⟨some body, some "/bin/bash",
            ⟨some ⟨0, e.stdout, e.stderr⟩, some ("script execution failed: " ++ msg)⟩⟩

/-- The escaping the claim describes: each embedded single quote replaced
by the four-character sequence that closes the quote, inserts a
backslash-escaped quote and reopens the quote.  Stated from the claim's
words, to be compared against `escapeShellValue` from the source. -/
def escapeShellValueClaimed (v : String) : String :=
  String.mk (v.data.flatMap fun c =>
    if c = '\x27' then ['\x27', '\\', '\x27', '\x27'] else [c])

/-- The export block as the amended claim words it: one
`export NAME='escaped-value'` line per environment entry, concatenated in
order, with the five-character single-quote escape. -/
def exportBlockSpec : List (String × String) → String
  | [] => ""
  | kv :: rest => exportLine kv ++ exportBlockSpec rest

/-- The synthesized script as the amended claim words it: shebang line,
`set -e` line, export block, then the caller's script verbatim. -/
def scriptBodySpec (script : String) (env : List (String × String)) : String :=
  "#!/bin/bash\n" ++ "set -e\n" ++ exportBlockSpec env ++ script

/-! ## Session construction (src/internal/ssh/session.go, `NewVMSession`) -/

/-- What a `NewVMSession` call produced: the returned value-or-error and
whether the WebSocket stream opened by the dial was closed again before
returning. -/
structure NewSessionOutcome where
  result : Except WrappedErr Unit
  streamClosed : Bool
deriving Repr

/-- Model of `NewVMSession` (session.go:63-101): a dial failure is
returned as-is (no stream was opened); a handshake failure closes the
stream and is classified by the `unable to authenticate` signature of the
shell library into the `ErrSSHAuthFailed` wrap or a generic
`failed to establish SSH connection` error; on success the session holds
the open stream. -/
def newVMSession (dialResult : Except WrappedErr Unit) (handshakeErr : Option String) :
    NewSessionOutcome :=
  match dialResult with
  | .error e => ⟨.error e, false⟩
  | .ok _ =>
      match handshakeErr with
      | some msg =>
          if strContains msg "unable to authenticate" then
            ⟨.error ⟨some .sshAuthFailed, msg⟩, true⟩
          else
            ⟨.error ⟨none, "failed to establish SSH connection: " ++ msg⟩, true⟩
      | none => ⟨.ok (), false⟩

/-! ## Session teardown (src/internal/ssh/session.go, `vmSession.Close`) -/

/-- The three resources `Close` may close, in the order it closes them. -/
inductive CloseTarget where
  | sftp
  | shell
  | stream
deriving DecidableEq, Repr

/-- The session's resources at `Close` time: for each client, `none` means
the field is nil (never created), `some e` means it is present and its own
`Close` returns `e` (`none` for success, `some msg` for failure). -/
structure CloseState where
  sftpClient : Option (Option String)
  sshClient : Option (Option String)
  wsConn : Option (Option String)
deriving DecidableEq, Repr

/-- What a `Close` call did: which closes were attempted in order, which
failed with what, and the aggregated error (`none` models a nil return,
`some failures` models the `errors during close: ...` error carrying every
collected failure). -/
structure CloseTrace where
  attempted : List CloseTarget
  failures : List (CloseTarget × String)
  errReturned : Option (List (CloseTarget × String))
deriving DecidableEq, Repr

/-- Model of `vmSession.Close` (session.go:235-260): close the SFTP
sub-client (only if created), then the shell client, then the stream,
attempting each close regardless of earlier failures, collecting every
failure, and returning nil exactly when nothing failed. -/
def closeSession (s : CloseState) : CloseTrace :=
  let step : CloseTarget → Option (Option String) →
      List CloseTarget × List (CloseTarget × String) := fun t c =>
    match c with
    | none => ([], [])
    | some none => ([t], [])
    | some (some e) => ([t], [(t, e)])
  let sftpStep := step .sftp s.sftpClient
  let shellStep := step .shell s.sshClient
  let streamStep := step .stream s.wsConn
  let attempted := sftpStep.1 ++ shellStep.1 ++ streamStep.1
  let failures := sftpStep.2 ++ shellStep.2 ++ streamStep.2
  ⟨attempted, failures, if failures.isEmpty then none else some failures⟩

/-! ## Facade operations (src/internal/ssh/session.go, `RunCloudInit` and
`UploadAndRunScript`)

Both open a session, do their work and close the session via
`defer session.Close()` — the deferred call runs on every exit path after
the session is created, and its return value is discarded. -/

/-- The behavior of the session a facade operation opened: the outcomes of
the calls the facade makes on it. -/
structure SessionModel where
  scriptRun : GoResult
  cmdRun : GoResult
  uploadErr : Option String
  closeErr : Option String
deriving DecidableEq, Repr

/-- What a facade call did: the Go-style result returned to the caller and
whether the session was closed before returning. -/
structure FacadeTrace where
  result : GoResult
  sessionClosed : Bool
deriving DecidableEq, Repr

/-- Model of `RunCloudInit` (session.go:264-272): open a session, run the
script, and return its result; the deferred `Close` runs whenever the open
succeeded, and its error — `closeErr` — is discarded. -/
def runCloudInit (openResult : Except String SessionModel) : FacadeTrace :=
  match openResult with
  | .error e => ⟨⟨none, some e⟩, false⟩
  | .ok sess => ⟨sess.scriptRun, true⟩

/-- Model of `UploadAndRunScript` (session.go:276-302): open a session,
upload the script, run the uploaded path via `ExecuteCommand`, and return
the result; the deferred `Close` runs on every exit path after the open,
including the upload-failure return, and its error is discarded. -/
def uploadAndRunScript (openResult : Except String SessionModel) : FacadeTrace :=
  match openResult with
  | .error e => ⟨⟨none, some e⟩, false⟩
  | .ok sess =>
      match sess.uploadErr with
      | some m => ⟨⟨none, some ("failed to upload script: " ++ m)⟩, true⟩
      | none => ⟨sess.cmdRun, true⟩

/-- Draining the buffered remainder: once the remainder is empty the reader
can only return data by fetching from the inbound queue, and reading from a
state with no queue and an exhausted remainder yields nothing. -/
theorem readAll_empty_reader (k fuel : Nat) :
    readAll k fuel { inbound := [], reader := some [] } = [] := by
  cases fuel with
  | zero => rfl
  | succ n => rfl

/-- Draining an unread remainder `r` with any positive buffer size returns
exactly `r` before any further message is consulted. -/
theorem readAll_drains_remainder (k : Nat) :
    ∀ fuel r, r.length ≤ fuel →
      readAll (k + 1) fuel { inbound := [], reader := some r } = r := by
  intro fuel
  induction fuel with
  | zero =>
      intro r hr
      have : r = [] := List.length_eq_zero.mp (Nat.le_zero.mp hr)
      subst this
      rfl
  | succ n ih =>
      intro r hr
      cases r with
      | nil => exact readAll_empty_reader _ _
      | cons a t =>
          have hstep :
              wsNetConnRead (k + 1) { inbound := [], reader := some (a :: t) } =
                some ((a :: t).take (k + 1),
                  { inbound := [], reader := some ((a :: t).drop (k + 1)) }) := by
            simp [wsNetConnRead]
          have hlen : ((a :: t).drop (k + 1)).length ≤ n := by
            simp only [List.length_drop]
            omega
          calc readAll (k + 1) (n + 1) { inbound := [], reader := some (a :: t) }
              = (a :: t).take (k + 1) ++
                  readAll (k + 1) n
                    { inbound := [], reader := some ((a :: t).drop (k + 1)) } := by
                simp [readAll, hstep]
            _ = (a :: t).take (k + 1) ++ (a :: t).drop (k + 1) := by
                rw [ih _ hlen]
            _ = a :: t := List.take_append_drop _ _

/--
**C1.** Stream-adapter round trip.  Writing a byte sequence `bs` in one
`Write` call delivers it whole as a single binary message and returns the
full length (a failed transport write returns an error instead); reading it
back with any positive buffer size — in particular one smaller than the
message — across repeated `Read` calls returns exactly `bs`, with no loss,
duplication or reordering; and whenever an unread remainder of the current
inbound message is present, a `Read` drains it (taking at most one buffer's
worth) without touching the inbound message queue.
-/
theorem wsNetConn_roundtrip (bs : List Nat) (k : Nat) :
    (∀ peer, wsNetConnWrite .delivered bs peer =
        .ok (bs.length, { peer with inbound := peer.inbound ++ [bs] })) ∧
    (∀ m peer, wsNetConnWrite (.failed m) bs peer = .error m) ∧
    readAll (k + 1) (bs.length + 1) { inbound := [bs], reader := none } = bs ∧
    (∀ q a t, wsNetConnRead (k + 1) { inbound := q, reader := some (a :: t) } =
        some ((a :: t).take (k + 1),
          { inbound := q, reader := some ((a :: t).drop (k + 1)) })) := by
  refine ⟨fun _ => rfl, fun _ _ => rfl, ?_, ?_⟩
  · cases bs with
    | nil => rfl
    | cons a t =>
        have hstep :
            wsNetConnRead (k + 1) { inbound := [a :: t], reader := none } =
              some ((a :: t).take (k + 1),
                { inbound := [], reader := some ((a :: t).drop (k + 1)) }) := by
          simp [wsNetConnRead, fetchNextMessage]
        have hlen : ((a :: t).drop (k + 1)).length ≤ (a :: t).length := by
          simp only [List.length_drop]
          omega
        calc readAll (k + 1) ((a :: t).length + 1) { inbound := [a :: t], reader := none }
            = (a :: t).take (k + 1) ++
                readAll (k + 1) (a :: t).length
                  { inbound := [], reader := some ((a :: t).drop (k + 1)) } := by
              simp [readAll, hstep]
          _ = (a :: t).take (k + 1) ++ (a :: t).drop (k + 1) := by
              rw [readAll_drains_remainder _ _ _ hlen]
          _ = a :: t := List.take_append_drop _ _
  · intro q a t
    simp [wsNetConnRead]

/-! ## Theorems about URL construction -/

/-- `String.append` acts as list append on the underlying characters. -/
theorem strData_append (a b : String) : (a ++ b).data = a.data ++ b.data := by
  cases a
  cases b
  rfl

/-- `String.append` is associative. -/
theorem strAppend_assoc (a b c : String) : a ++ b ++ c = a ++ (b ++ c) := by
  cases a with | mk la =>
  cases b with | mk lb =>
  cases c with | mk lc =>
  exact congrArg String.mk (List.append_assoc la lb lc)

/-- A URL built on the plain prefix announces scheme `ws`. -/
theorem urlScheme_ws_prefix (s : String) : urlScheme ("ws" ++ ("://" ++ s)) = "ws" := by
  cases s
  rfl

/-- A URL built on the secure prefix announces scheme `wss`. -/
theorem urlScheme_wss_prefix (s : String) : urlScheme ("wss" ++ ("://" ++ s)) = "wss" := by
  cases s
  rfl

/--
**C2.** URL construction is a pure function of `TunnelConfig`:
base `http://localhost:6120/v1`, target `test-vm`, port 22, wait 30 maps to
exactly `ws://localhost:6120/v1/vms/test-vm/port-forward?port=22&wait=30`;
base `https://orchard.example.com/v1`, target `my-vm`, port 22, wait 60
maps to `wss://orchard.example.com/v1/vms/my-vm/port-forward?port=22&wait=60`;
with wait 0 the `&wait=` fragment is entirely absent (concretely, and in
general: for every config with a non-positive wait budget whose base URL
parses, the produced URL is exactly the wait-free form); and a target
identifier containing a space or a slash has those characters
percent-encoded in the path segment.
-/
theorem buildWebSocketURL_pure_function :
    buildWebSocketURL ⟨"http://localhost:6120/v1", "", "test-vm", 22, 30, "", "", 0⟩ =
        .ok "ws://localhost:6120/v1/vms/test-vm/port-forward?port=22&wait=30" ∧
    buildWebSocketURL ⟨"https://orchard.example.com/v1", "", "my-vm", 22, 60, "", "", 0⟩ =
        .ok "wss://orchard.example.com/v1/vms/my-vm/port-forward?port=22&wait=60" ∧
    (buildWebSocketURL ⟨"http://localhost:6120/v1", "", "test-vm", 22, 0, "", "", 0⟩ =
        .ok "ws://localhost:6120/v1/vms/test-vm/port-forward?port=22" ∧
      strContains "ws://localhost:6120/v1/vms/test-vm/port-forward?port=22" "&wait="
        = false) ∧
    (∀ config baseURL, parseURL config.orchardBaseURL = .ok baseURL →
      config.waitSeconds ≤ 0 →
      buildWebSocketURL config =
        .ok ((if baseURL.scheme = "https" then "wss" else "ws") ++ "://" ++
          baseURL.host ++ baseURL.path ++ "/vms/" ++ pathEscape config.vmName ++
          "/port-forward?port=" ++ toString config.sshPort)) ∧
    pathEscape "test vm" = "test%20vm" ∧
    pathEscape "a/b" = "a%2Fb" ∧
    buildWebSocketURL ⟨"http://localhost:6120/v1", "", "test vm/special", 22, 30, "", "", 0⟩ =
        .ok "ws://localhost:6120/v1/vms/test%20vm%2Fspecial/port-forward?port=22&wait=30" := by
  refine ⟨rfl, rfl, ⟨rfl, by decide⟩, ?_, rfl, rfl, rfl⟩
  intro config baseURL hparse hwait
  simp only [buildWebSocketURL, hparse]
  rw [if_neg (by omega)]

/-- Witness for C2: the general wait-free conjunct discharged at a
concrete configuration with wait budget 0. -/
theorem buildWebSocketURL_pure_function_witness :
    parseURL "http://localhost:6120/v1" = .ok ⟨"http", "localhost:6120", "/v1"⟩ ∧
    (0 : Int) ≤ 0 ∧
    buildWebSocketURL ⟨"http://localhost:6120/v1", "", "test-vm", 22, 0, "", "", 0⟩ =
      .ok ((if ("http" : String) = "https" then "wss" else "ws") ++ "://" ++
        "localhost:6120" ++ "/v1" ++ "/vms/" ++ pathEscape "test-vm" ++
        "/port-forward?port=" ++ toString (22 : Int)) :=
  ⟨rfl, le_refl 0,
    buildWebSocketURL_pure_function.2.2.2.1
      ⟨"http://localhost:6120/v1", "", "test-vm", 22, 0, "", "", 0⟩
      ⟨"http", "localhost:6120", "/v1"⟩ rfl (le_refl 0)⟩

/--
**C10.** For every `TunnelConfig` whose base URL parses, the produced URL
announces the secure scheme `wss` exactly when the base URL's scheme is
`https`; every other scheme — including `wss` itself — produces plain
`ws`, so a base URL already specifying a secure WebSocket scheme is
silently downgraded to an unencrypted one (shown concretely on a
`wss://` base address).
-/
theorem buildWebSocketURL_scheme_downgrade :
    (∀ config baseURL, parseURL config.orchardBaseURL = .ok baseURL →
      ∃ out, buildWebSocketURL config = .ok out ∧
        (urlScheme out = "wss" ↔ baseURL.scheme = "https") ∧
        (baseURL.scheme ≠ "https" → urlScheme out = "ws")) ∧
    buildWebSocketURL ⟨"wss://orchard.example.com/v1", "", "my-vm", 22, 0, "", "", 0⟩ =
      .ok "ws://orchard.example.com/v1/vms/my-vm/port-forward?port=22" := by
  constructor
  · intro config baseURL hparse
    simp only [buildWebSocketURL, hparse]
    by_cases hs : baseURL.scheme = "https"
    · rw [if_pos hs]
      by_cases hw : 0 < config.waitSeconds
      · rw [if_pos hw]
        refine ⟨_, rfl, ?_, fun hns => absurd hs hns⟩
        simp only [strAppend_assoc, urlScheme_wss_prefix]
        exact ⟨fun _ => hs, fun _ => trivial⟩
      · rw [if_neg hw]
        refine ⟨_, rfl, ?_, fun hns => absurd hs hns⟩
        simp only [strAppend_assoc, urlScheme_wss_prefix]
        exact ⟨fun _ => hs, fun _ => trivial⟩
    · rw [if_neg hs]
      by_cases hw : 0 < config.waitSeconds
      · rw [if_pos hw]
        refine ⟨_, rfl, ?_, ?_⟩
        · simp only [strAppend_assoc, urlScheme_ws_prefix]
          exact ⟨fun h => absurd h (by decide), fun h => absurd h hs⟩
        · intro _
          simp only [strAppend_assoc, urlScheme_ws_prefix]
      · rw [if_neg hw]
        refine ⟨_, rfl, ?_, ?_⟩
        · simp only [strAppend_assoc, urlScheme_ws_prefix]
          exact ⟨fun h => absurd h (by decide), fun h => absurd h hs⟩
        · intro _
          simp only [strAppend_assoc, urlScheme_ws_prefix]
  · rfl

/-- Witness for C10: a `wss://` base URL parses, and the tunnel URL built
from it announces plain `ws` — the silent downgrade. -/
theorem buildWebSocketURL_scheme_downgrade_witness :
    parseURL "wss://orchard.example.com/v1" =
      .ok ⟨"wss", "orchard.example.com", "/v1"⟩ ∧
    (∃ out,
      buildWebSocketURL ⟨"wss://orchard.example.com/v1", "", "my-vm", 22, 0, "", "", 0⟩ =
        .ok out ∧ urlScheme out = "ws") := by
  refine ⟨rfl, ?_⟩
  obtain ⟨out, hout, _, hws⟩ :=
    buildWebSocketURL_scheme_downgrade.1
      ⟨"wss://orchard.example.com/v1", "", "my-vm", 22, 0, "", "", 0⟩
      ⟨"wss", "orchard.example.com", "/v1"⟩ rfl
  exact ⟨out, hout, hws (by decide)⟩

/-! ## Theorems about dial-failure classification -/

/--
**C4.** Dial-failure classification: an HTTP 404 during the handshake
wraps the `VMNotReady` sentinel with the target identifier and status in
the message; 503, 400, any other status, and no response at all wrap the
`ConnectionFailed` sentinel; and `errors.Is` distinguishes the 404 case
from the `ConnectionFailed` class: the error matches `VMNotReady` exactly
when the observed status is 404, and matches `ConnectionFailed` exactly
otherwise.
-/
theorem dialWebSocket_failure_classification :
    (∀ name errText, classifyDialFailure name (some 404) errText =
        ⟨some Sentinel.vmNotReady,
          "VM \x22" ++ name ++ "\x22 not found (HTTP " ++ "404" ++ ")"⟩) ∧
    (∀ name errText, classifyDialFailure name (some 503) errText =
        ⟨some Sentinel.connectionFailed,
          "failed to connect to VM \x22" ++ name ++ "\x22 worker (HTTP " ++
            "503" ++ ")"⟩) ∧
    (∀ name errText, classifyDialFailure name (some 400) errText =
        ⟨some Sentinel.connectionFailed, "invalid port specified (HTTP 400)"⟩) ∧
    (∀ name errText, classifyDialFailure name (some 500) errText =
        ⟨some Sentinel.connectionFailed,
          "WebSocket dial failed with status " ++ "500" ++ ": " ++ errText⟩) ∧
    (∀ name errText, classifyDialFailure name none errText =
        ⟨some Sentinel.connectionFailed, errText⟩) ∧
    (∀ name st errText,
      errorsIs (classifyDialFailure name st errText) Sentinel.vmNotReady =
        decide (st = some 404) ∧
      errorsIs (classifyDialFailure name st errText) Sentinel.connectionFailed =
        !decide (st = some 404)) := by
  refine ⟨fun _ _ => rfl, fun _ _ => rfl, fun _ _ => rfl, fun _ _ => rfl,
    fun _ _ => rfl, ?_⟩
  intro name st errText
  cases st with
  | none => exact ⟨rfl, rfl⟩
  | some code =>
      by_cases h4 : code = 404
      · subst h4
        exact ⟨rfl, rfl⟩
      · by_cases h5 : code = 503
        · subst h5
          exact ⟨rfl, rfl⟩
        · by_cases h0 : code = 400
          · subst h0
            exact ⟨rfl, rfl⟩
          · simp [classifyDialFailure, errorsIs, h4, h5, h0]

/-- C9 counterexample: a dial that fails because the context deadline was
exceeded produces no HTTP response, and the returned error wraps
`ConnectionFailed`, not `Timeout` — the layer does not return a
`Timeout`-kind error for a deadline-exceeded dial. -/
theorem timeout_claim_counterexample :
    errorsIs (classifyDialFailure "test-vm" none "context deadline exceeded")
        Sentinel.timeout = false ∧
    errorsIs (classifyDialFailure "test-vm" none "context deadline exceeded")
        Sentinel.connectionFailed = true :=
  ⟨rfl, rfl⟩

/--
**C9 (amended).** The `Timeout` sentinel exists and is programmatically
distinguishable (`errors.Is`) from the `ConnectionFailed`, `VMNotReady`,
`AuthFailed` and `TransferFailed` kinds, but no dial-failure
classification ever returns it: a deadline-exceeded dial (no HTTP
response) is classified as `ConnectionFailed`.
-/
theorem timeout_kind_distinct_but_never_returned :
    (∀ name st errText,
      errorsIs (classifyDialFailure name st errText) Sentinel.timeout = false) ∧
    classifyDialFailure "test-vm" none "context deadline exceeded" =
      ⟨some Sentinel.connectionFailed, "context deadline exceeded"⟩ ∧
    (∀ msg, errorsIs ⟨some Sentinel.timeout, msg⟩ Sentinel.timeout = true ∧
      errorsIs ⟨some Sentinel.timeout, msg⟩ Sentinel.connectionFailed = false ∧
      errorsIs ⟨some Sentinel.timeout, msg⟩ Sentinel.vmNotReady = false ∧
      errorsIs ⟨some Sentinel.timeout, msg⟩ Sentinel.sshAuthFailed = false ∧
      errorsIs ⟨some Sentinel.timeout, msg⟩ Sentinel.sftpFailed = false) := by
  refine ⟨?_, rfl, fun _ => ⟨rfl, rfl, rfl, rfl, rfl⟩⟩
  intro name st errText
  cases st with
  | none => rfl
  | some code =>
      by_cases h4 : code = 404
      · subst h4
        rfl
      · by_cases h5 : code = 503
        · subst h5
          rfl
        · by_cases h0 : code = 400
          · subst h0
            rfl
          · simp [classifyDialFailure, errorsIs, h4, h5, h0]

/-! ## Theorems about command and script execution -/

/--
**C3.** A remote process exiting with a non-zero status is a successful
call: when the channel opens and `Run` reports an `*ssh.ExitError` with
status `code`, both `ExecuteCommand` and `ExecuteScript` return a nil
error with the status and the captured output text in the
`CommandResult`; and an error is returned exactly when the channel could
not be opened or a transport-level failure occurred during execution.
-/
theorem nonzero_exit_is_success (e : ExecEnv) (command script : String)
    (env : List (String × String)) (code : Int)
    (hchan : e.newSession = .ok ()) (hrun : e.runOutcome = .exit code) :
    executeCommand e command = ⟨some ⟨code, e.stdout, e.stderr⟩, none⟩ ∧
    (executeScript e script env).result = ⟨some ⟨code, e.stdout, e.stderr⟩, none⟩ ∧
    (∀ e2 cmd2, (executeCommand e2 cmd2).err ≠ none ↔
      ((∃ m, e2.newSession = .error m) ∨ (∃ m, e2.runOutcome = .transport m))) ∧
    (∀ e2 s2 env2, (executeScript e2 s2 env2).result.err ≠ none ↔
      ((∃ m, e2.newSession = .error m) ∨ (∃ m, e2.runOutcome = .transport m))) := by
  refine ⟨by simp [executeCommand, hchan, hrun], by simp [executeScript, hchan, hrun],
    ?_, ?_⟩
  · intro e2 cmd2
    obtain ⟨ns, ro, so, st⟩ := e2
    cases ns <;> cases ro <;> simp [executeCommand]
  · intro e2 s2 env2
    obtain ⟨ns, ro, so, st⟩ := e2
    cases ns <;> cases ro <;> simp [executeScript]

/-- Witness for C3: a command exiting 42 with `hello` on stdout yields a
nil error and `{ExitCode: 42, Stdout: "hello\n", Stderr: ""}`. -/
theorem nonzero_exit_is_success_witness :
    (⟨.ok (), .exit 42, "hello\n", ""⟩ : ExecEnv).newSession = .ok () ∧
    (⟨.ok (), .exit 42, "hello\n", ""⟩ : ExecEnv).runOutcome = .exit 42 ∧
    executeCommand ⟨.ok (), .exit 42, "hello\n", ""⟩ "exit 42" =
      ⟨some ⟨42, "hello\n", ""⟩, none⟩ :=
  ⟨rfl, rfl,
    (nonzero_exit_is_success ⟨.ok (), .exit 42, "hello\n", ""⟩ "exit 42" "" [] 42
      rfl rfl).1⟩

/-- C5 counterexample: the code replaces each embedded single quote with
the five-character sequence quote, double-quote, quote, double-quote,
quote — not the four-character close/backslash-escape/reopen sequence the
claim describes. -/
theorem executeScript_escape_counterexample :
    escapeShellValue (String.mk ['\x27']) ≠
        escapeShellValueClaimed (String.mk ['\x27']) ∧
    escapeShellValue (String.mk ['\x27']) =
        String.mk ['\x27', '\x22', '\x27', '\x22', '\x27'] ∧
    (escapeShellValue (String.mk ['\x27'])).length = 5 ∧
    (escapeShellValueClaimed (String.mk ['\x27'])).length = 4 :=
  ⟨by decide, rfl, rfl, rfl⟩

/-- `String.append` with the empty string on the right is the identity. -/
theorem strAppend_empty (a : String) : a ++ "" = a := by
  cases a with | mk l =>
  exact congrArg String.mk (List.append_nil l)

/-- `String.append` with the empty string on the left is the identity. -/
theorem strEmpty_append (a : String) : "" ++ a = a := by
  cases a with | mk l =>
  rfl

/-- The builder loop writing one export line per environment entry equals
the concatenation of the export lines after the accumulator. -/
theorem foldl_exportLine (env : List (String × String)) :
    ∀ acc : String,
      env.foldl (fun acc kv => acc ++ exportLine kv) acc = acc ++ exportBlockSpec env := by
  induction env with
  | nil =>
      intro acc
      simp [exportBlockSpec, strAppend_empty]
  | cons kv rest ih =>
      intro acc
      simp only [List.foldl_cons, exportBlockSpec]
      rw [ih, strAppend_assoc]

/-- The synthesized script body from the source equals the spec-worded
decomposition: shebang, `set -e`, export block, script verbatim. -/
theorem buildScriptBody_eq_spec (script : String) (env : List (String × String)) :
    buildScriptBody script env = scriptBodySpec script env := by
  simp only [buildScriptBody, scriptBodySpec]
  rw [foldl_exportLine, strEmpty_append]
  rfl

/--
**C5 (amended).** For every script and environment list, `ExecuteScript`
synthesizes exactly a shebang line, a `set -e` line, one
`export NAME='escaped-value'` line per environment entry — where each
embedded single quote in a value is replaced with the five-character
sequence that closes the quote, inserts a double-quoted quote and reopens
the quote — followed by the caller's script text verbatim, and feeds this
text to the standard input of a directly-invoked `/bin/bash` (no upload).
-/
theorem executeScript_synthesis (e : ExecEnv) (script : String)
    (env : List (String × String)) (hchan : e.newSession = .ok ()) :
    (executeScript e script env).stdin = some (scriptBodySpec script env) ∧
    (executeScript e script env).command = some "/bin/bash" := by
  cases hro : e.runOutcome <;>
    simp [executeScript, hchan, hro, buildScriptBody_eq_spec]

/-- Witness for C5: the synthesized text for `env = {MY_VAR: test-value}`
is the shebang, `set -e`, the export line, then the script. -/
theorem executeScript_synthesis_witness :
    (⟨.ok (), .success, "test-value\n", ""⟩ : ExecEnv).newSession = .ok () ∧
    (executeScript ⟨.ok (), .success, "test-value\n", ""⟩ "echo $MY_VAR"
        [("MY_VAR", "test-value")]).stdin =
      some ("#!/bin/bash\nset -e\nexport MY_VAR=" ++ String.mk ['\x27'] ++
        "test-value" ++ String.mk ['\x27'] ++ "\necho $MY_VAR") ∧
    (executeScript ⟨.ok (), .success, "test-value\n", ""⟩ "echo $MY_VAR"
        [("MY_VAR", "test-value")]).command = some "/bin/bash" := by
  have h := executeScript_synthesis ⟨.ok (), .success, "test-value\n", ""⟩
    "echo $MY_VAR" [("MY_VAR", "test-value")] rfl
  refine ⟨rfl, ?_, h.2⟩
  rw [h.1]
  rfl

/-! ## Theorems about session construction and teardown -/

/--
**C6.** Every handshake failure in `NewVMSession` closes the stream
opened by the dial before returning and returns an error (never a
partially-usable session); the error wraps the `SSHAuthFailed` sentinel
exactly when the handshake error text contains the shell library's
`unable to authenticate` marker, and is the generic
`failed to establish SSH connection` wrap otherwise.
-/
theorem newVMSession_handshake_failure (msg : String) :
    (newVMSession (.ok ()) (some msg)).streamClosed = true ∧
    (newVMSession (.ok ()) (some msg)).result.isOk = false ∧
    (newVMSession (.ok ()) (some msg)).result =
      .error (if strContains msg "unable to authenticate" then
          ⟨some Sentinel.sshAuthFailed, msg⟩
        else ⟨none, "failed to establish SSH connection: " ++ msg⟩) := by
  by_cases hc : strContains msg "unable to authenticate" <;>
    simp [newVMSession, hc, Except.isOk, Except.toBool]

/--
**C7.** `Close` closes, in order, the file-transfer sub-client (only when
it was created), then the shell client, then the stream; every close is
attempted regardless of earlier failures; the collected failures are
exactly the failing closes in that order; the call returns nil exactly
when no attempted close failed; and when the file-transfer sub-client was
never created the failure list contains no file-transfer entry.
-/
theorem close_aggregates_all_failures (sf : Option (Option String))
    (se we : Option String) :
    (closeSession ⟨sf, some se, some we⟩).attempted =
      (match sf with | none => [] | some _ => [CloseTarget.sftp]) ++
        [CloseTarget.shell, CloseTarget.stream] ∧
    (closeSession ⟨sf, some se, some we⟩).failures =
      (match sf with
        | none => []
        | some none => []
        | some (some e1) => [(CloseTarget.sftp, e1)]) ++
      (match se with | none => [] | some e2 => [(CloseTarget.shell, e2)]) ++
      (match we with | none => [] | some e3 => [(CloseTarget.stream, e3)]) ∧
    ((closeSession ⟨sf, some se, some we⟩).errReturned = none ↔
      (closeSession ⟨sf, some se, some we⟩).failures = []) ∧
    (closeSession ⟨none, some se, some we⟩).failures =
      (match se with | none => [] | some e2 => [(CloseTarget.shell, e2)]) ++
      (match we with | none => [] | some e3 => [(CloseTarget.stream, e3)]) := by
  rcases sf with _ | ⟨_ | e1⟩ <;> rcases se with _ | e2 <;> rcases we with _ | e3 <;>
    simp [closeSession]

/-! ## Theorems about the facade operations -/

/-- C8 counterexample: a facade run whose deferred session close fails
returns exactly the same value as one whose close succeeds — the close
failure is discarded, not reported to the caller. -/
theorem facade_close_error_unreported :
    (runCloudInit (.ok ⟨⟨some ⟨0, "done", ""⟩, none⟩, ⟨none, none⟩, none,
        some "websocket: close failed"⟩)).result =
      ⟨some ⟨0, "done", ""⟩, none⟩ ∧
    runCloudInit (.ok ⟨⟨some ⟨0, "done", ""⟩, none⟩, ⟨none, none⟩, none,
        some "websocket: close failed"⟩) =
      runCloudInit (.ok ⟨⟨some ⟨0, "done", ""⟩, none⟩, ⟨none, none⟩, none, none⟩) :=
  ⟨rfl, rfl⟩

/--
**C8 (amended).** `RunCloudInit` and `UploadAndRunScript` open a session,
perform their work, and close the session on every exit path after a
successful open (including upload and execution failures), returning the
execution result; the deferred close's own failure is discarded — it
never alters the result the caller sees.  When the open itself fails, the
open error is returned and there is no session to close.
-/
theorem facades_close_on_every_path (sess : SessionModel) (e c : String) :
    (runCloudInit (.ok sess)).sessionClosed = true ∧
    (runCloudInit (.ok sess)).result = sess.scriptRun ∧
    (uploadAndRunScript (.ok sess)).sessionClosed = true ∧
    (uploadAndRunScript (.ok sess)).result =
      (match sess.uploadErr with
        | some m => ⟨none, some ("failed to upload script: " ++ m)⟩
        | none => sess.cmdRun) ∧
    runCloudInit (.ok { sess with closeErr := some c }) =
      runCloudInit (.ok { sess with closeErr := none }) ∧
    uploadAndRunScript (.ok { sess with closeErr := some c }) =
      uploadAndRunScript (.ok { sess with closeErr := none }) ∧
    (runCloudInit (.error e)).result = ⟨none, some e⟩ ∧
    (runCloudInit (.error e)).sessionClosed = false ∧
    (uploadAndRunScript (.error e)).result = ⟨none, some e⟩ ∧
    (uploadAndRunScript (.error e)).sessionClosed = false := by
  rcases hsu : sess.uploadErr with _ | m <;>
    simp [runCloudInit, uploadAndRunScript, hsu]

end ProviderOrchard
